import Mathlib

/-!
A verification development for the round-trip running-route optimization
engine (routeOptimizer v2.1 / v3.0 / v4.0 / v4.1 and the stable course
generator v2.2).

Modelling conventions:
- All numeric quantities are rationals.  The TypeScript source computes with
  IEEE doubles; the claims under study are about control flow (acceptance
  windows, candidate selection, fallback policy, validation), which is
  faithfully captured by exact arithmetic.
- The transcendental geometry helpers (haversine distance, bearing, and
  great-circle point projection) are abstracted as an explicit environment
  of functions (`GeoEnv`).  All control-flow theorems are proved for every
  such environment, in particular for the real haversine instances.
- The external OSRM routing service is modelled as a response function: a
  call either yields a parsed route (distance in meters, duration in
  seconds, polyline geometry) or fails (`none` stands for a network error,
  a non-2xx response, or an empty routes array).
-/

/-- A WGS84 coordinate pair, as in the `Location` interface of the source. -/
structure Location where
  lat : ℚ
  lng : ℚ
deriving DecidableEq

instance : Inhabited Location := ⟨⟨0, 0⟩⟩

/-- A parsed route from the routing oracle: `routes[0].distance` (meters),
`routes[0].duration` (seconds) and `routes[0].geometry.coordinates`
already converted from wire order `[lng, lat]` to `Location`. -/
structure OsrmRoute where
  distanceMeters : ℚ
  durationSeconds : ℚ
  geometry : List Location
deriving DecidableEq

/-- The transcendental geometry helpers of the source, abstracted as data:
`dist` stands for `calculateStraightLineDistance` (haversine, km),
`project` for `getLocationByBearingAndDistance` (origin, bearing in
degrees, distance in km), and `bearing` for `calculateBearing`. -/
structure GeoEnv where
  dist : Location → Location → ℚ
  project : Location → ℚ → ℚ → Location
  bearing : Location → Location → ℚ

/-- A point-to-point oracle: the response for a request from the first
point to the second, `none` on failure. -/
def PointOracle : Type := Location → Location → Option OsrmRoute

/-- A multi-waypoint oracle: the response for a request through the given
ordered waypoint list, `none` on failure. -/
def MultiOracle : Type := List Location → Option OsrmRoute

/-- Running pace of the v2.1 engine, minutes per km
(`RUNNING_PACE_MIN_PER_KM = 6`). -/
def RUNNING_PACE_MIN_PER_KM : ℚ := 6

/-- Running pace of the v2.2 / v3.0 / v4.1 engines, minutes per km
(`RUNNING_PACE_MIN_PER_KM = 5` in those files). -/
def PACE5_MIN_PER_KM : ℚ := 5

/-- Pace constant of the v4.0 engine, km per minute
(`RUNNING_PACE_KM_PER_MIN = 1 / 6`). -/
def RUNNING_PACE_KM_PER_MIN : ℚ := 1 / 6

/-- Waypoint cap of `getClosedRouteGeometry` (`MAX_WAYPOINTS = 20`). -/
def MAX_WAYPOINTS : ℕ := 20

/-- Result of `getSegmentRouteInfo` in routeOptimizer.v2: distance in km
and duration in minutes. -/
structure SegmentResult where
  distance : ℚ
  duration : ℚ
deriving DecidableEq

/-- Embedding of `getSegmentRouteInfo` (routeOptimizer.v2, lines 258-293).
On oracle success it returns the oracle distance (m to km) and the oracle
duration (seconds to minutes).  On any failure it falls back to the
straight-line distance and a pace-derived duration, and surfaces no error. -/
def getSegmentRouteInfo (dist : Location → Location → ℚ)
    (resp : Option OsrmRoute) (a b : Location) : SegmentResult :=
  match resp with
  | some r => { distance := r.distanceMeters / 1000, duration := r.durationSeconds / 60 }
  | none =>
    let d := dist a b
    { distance := d, duration := d * RUNNING_PACE_MIN_PER_KM }

/-- Result of `getClosedRouteGeometry`: distance in km, duration in
seconds, and the polyline path. -/
structure ClosedGeometry where
  distance : ℚ
  duration : ℚ
  path : List Location
deriving DecidableEq

/-- Consecutive pairs of a list, as iterated by the fallback loop of
`getClosedRouteGeometry` and by `calculatePathDistance`. -/
def pairsOf : List Location → List (Location × Location)
  | a :: b :: rest => (a, b) :: pairsOf (b :: rest)
  | _ => []

/-- Sum of the abstract straight-line distances over consecutive points. -/
def sumPairwiseDist (dist : Location → Location → ℚ) (l : List Location) : ℚ :=
  ((pairsOf l).map (fun p => dist p.1 p.2)).sum

/-- Embedding of `getClosedRouteGeometry` (routeOptimizer.v2, lines
193-253).  Fewer than 2 waypoints throws; the waypoint list is capped at
`MAX_WAYPOINTS`.  Oracle success returns the oracle values; any oracle
failure falls back to the waypoints joined by straight segments, with a
pace-derived duration in seconds, surfacing no error. -/
def getClosedRouteGeometry (dist : Location → Location → ℚ)
    (resp : Option OsrmRoute) (waypoints : List Location) :
    Except String ClosedGeometry :=
  if waypoints.length < 2 then
    .error "At least 2 waypoints required (start and end)"
  else
    let limitedWaypoints := waypoints.take MAX_WAYPOINTS
    match resp with
    | some r =>
      .ok { distance := r.distanceMeters / 1000, duration := r.durationSeconds,
            path := r.geometry }
    | none =>
      let totalDistance := sumPairwiseDist dist limitedWaypoints
      .ok { distance := totalDistance,
            duration := totalDistance * RUNNING_PACE_MIN_PER_KM * 60,
            path := limitedWaypoints }

/-- One hop of an evaluated route (`RouteSegment` in routeOptimizer.v2). -/
structure RouteSegment where
  src : Location
  dst : Location
  distance : ℚ
  duration : ℚ
  path : List Location
deriving DecidableEq

/-- Totals of an evaluated route (`evaluateRoute` return value). -/
structure RouteTotals where
  totalDistance : ℚ
  estimatedTime : ℚ
  segments : List RouteSegment
deriving DecidableEq

/-- Embedding of `evaluateRoute` (routeOptimizer.v2, lines 300-340): the
waypoints are closed into start -> wp0 -> ... -> wpN -> start and every
consecutive pair is resolved through `getSegmentRouteInfo`; totals are the
sums of the per-segment values. -/
def evaluateRoute (env : GeoEnv) (oracle : PointOracle)
    (startLocation : Location) (waypoints : List Location) : RouteTotals :=
  let closedWaypoints := startLocation :: waypoints ++ [startLocation]
  let segments := (pairsOf closedWaypoints).map (fun p =>
    let info := getSegmentRouteInfo env.dist (oracle p.1 p.2) p.1 p.2
    { src := p.1, dst := p.2, distance := info.distance,
      duration := info.duration, path := [] : RouteSegment })
  { totalDistance := (segments.map (fun s => s.distance)).sum,
    estimatedTime := (segments.map (fun s => s.duration)).sum,
    segments := segments }

/-- Embedding of `generateCircularWaypoints` (routeOptimizer.v2, lines
163-184): `numWaypoints` points projected from the start at evenly spaced
bearings, all at radius `maxDistanceKm`. -/
def generateCircularWaypoints (env : GeoEnv) (startLocation : Location)
    (maxDistanceKm : ℚ) (numWaypoints : ℕ) : List Location :=
  (List.range numWaypoints).map (fun i =>
    env.project startLocation ((i : ℚ) / (numWaypoints : ℚ) * 360) maxDistanceKm)

/-- Distance threshold for the duplicate test, meters
(`DUPLICATE_THRESHOLD_METERS = 20`). -/
def DUPLICATE_THRESHOLD_METERS : ℚ := 20

/-- Embedding of `calculateDuplicateRatio` (routeOptimizer.v2, lines
382-409): the fraction of points in the first half of the path that have
some point of the second half within 20 m. -/
def calculateDuplicateRatio (dist : Location → Location → ℚ)
    (routePath : List Location) : ℚ :=
  if routePath.length < 4 then 0
  else
    let midPoint := routePath.length / 2
    let firstHalf := routePath.take midPoint
    let secondHalf := routePath.drop midPoint
    if firstHalf.length = 0 ∨ secondHalf.length = 0 then 0
    else
      let duplicateCount := (firstHalf.filter (fun p1 =>
        secondHalf.any (fun p2 => dist p1 p2 * 1000 ≤ DUPLICATE_THRESHOLD_METERS))).length
      min ((duplicateCount : ℚ) / (firstHalf.length : ℚ)) 1

/-- Embedding of `calculateTurnAngle` (routeOptimizer.v2, lines 420-428):
absolute bearing change normalized to 0..180. -/
def calculateTurnAngle (bearing : Location → Location → ℚ)
    (p1 p2 p3 : Location) : ℚ :=
  let angle := |bearing p2 p3 - bearing p1 p2|
  if angle > 180 then 360 - angle else angle

/-- Index sequence 0, step, 2*step, ... strictly below `n`, as iterated by
the sampling loops of `countSharpTurns` and `calculateZigzagScore`. -/
def sampledIndices (n step : ℕ) : List ℕ :=
  (List.range n).filter (fun i => i % step = 0)

/-- Embedding of `countSharpTurns` (routeOptimizer.v2, lines 436-452):
count of sampled consecutive-triplet bearing changes at or above the
threshold. -/
def countSharpTurns (bearing : Location → Location → ℚ)
    (routePath : List Location) (threshold : ℚ) : ℕ :=
  if routePath.length < 3 then 0
  else
    let sampleInterval := max 1 (routePath.length / 50)
    ((sampledIndices (routePath.length - 2) sampleInterval).filter (fun i =>
      calculateTurnAngle bearing (routePath.getD i default)
        (routePath.getD (i + 1) default) (routePath.getD (i + 2) default) ≥ threshold)).length

/-- Embedding of `calculateZigzagScore` (routeOptimizer.v2, lines
460-479): fraction of sampled sharp turns at or above 90 degrees. -/
def calculateZigzagScore (bearing : Location → Location → ℚ)
    (routePath : List Location) : ℚ :=
  if routePath.length < 10 then 0
  else
    let segmentSize := routePath.length / 10
    if segmentSize < 2 then 0
    else
      let zigzagCount := ((sampledIndices (routePath.length - 2) segmentSize).filter (fun i =>
        calculateTurnAngle bearing (routePath.getD i default)
          (routePath.getD (i + 1) default) (routePath.getD (i + 2) default) ≥ 90)).length
      min ((zigzagCount : ℚ) / 10) 1

/-- Embedding of `calculateRouteQualityScore` (routeOptimizer.v2, lines
487-498). -/
def calculateRouteQualityScore (bearing : Location → Location → ℚ)
    (routePath : List Location) : ℚ :=
  let sharpTurns := countSharpTurns bearing routePath 60
  let zigzagScore := calculateZigzagScore bearing routePath
  let turnPenalty := min ((sharpTurns : ℚ) / 20) 1
  min ((turnPenalty + zigzagScore) / 2) 1

/-- Internal candidate record of the v2.1 engine (`RouteCandidate`). -/
structure RouteCandidateV2 where
  waypoints : List Location
  routeTotals : RouteTotals
  routePath : List Location
  duration : ℚ
  timeDiff : ℚ
  duplicateRatio : ℚ
  qualityScore : ℚ
  sharpTurns : ℕ
  score : ℚ
deriving DecidableEq

/-- Scale sweep of the v2.1 engine (`scales`). -/
def v2Scales : List ℚ := [0.75, 0.8, 0.85, 0.9, 0.95, 1.0]

/-- Waypoint-count sweep of the v2.1 engine (`waypointCounts`). -/
def v2WaypointCounts : List ℕ := [4, 5, 6, 7, 8]

/-- The (scale, waypoint count) attempts of the v2.1 engine in loop order,
capped at `maxAttempts = 30`. -/
def v2Attempts : List (ℚ × ℕ) :=
  (v2Scales.flatMap (fun scale => v2WaypointCounts.map (fun wp => (scale, wp)))).take 30

/-- One accepted-or-rejected attempt of the v2.1 engine
(`generateOptimizedClosedRoute` loop body, routeOptimizer.v2, lines
557-643).  `optimizeWaypointCount` projects the waypoints at radius
`targetTime / pace` and evaluates the closed route; the candidate is
accepted only if `lowerBound < estimatedMinutes < targetMin`. -/
def v2AttemptResult (env : GeoEnv) (oracle : PointOracle) (oracleMulti : MultiOracle)
    (startLocation : Location) (maxRunningMinutes : ℚ) (scale : ℚ) (wpCount : ℕ) :
    Option RouteCandidateV2 :=
  let targetMin := maxRunningMinutes
  let lowerBound := maxRunningMinutes - 2
  let targetTime := maxRunningMinutes * scale
  let targetDistance := targetTime / RUNNING_PACE_MIN_PER_KM
  let waypoints := generateCircularWaypoints env startLocation targetDistance wpCount
  let totals := evaluateRoute env oracle startLocation waypoints
  let estimatedMinutes := totals.estimatedTime
  if lowerBound < estimatedMinutes ∧ estimatedMinutes < targetMin then
    let closedWaypoints := startLocation :: waypoints ++ [startLocation]
    let routePath :=
      match getClosedRouteGeometry env.dist (oracleMulti closedWaypoints) closedWaypoints with
      | .ok g => g.path
      | .error _ => closedWaypoints
    let duplicateRatio := calculateDuplicateRatio env.dist routePath
    let qualityScore := calculateRouteQualityScore env.bearing routePath
    let sharpTurns := countSharpTurns env.bearing routePath 60
    let timeScore := (targetMin - estimatedMinutes) * 1000
    let duplicatePenalty := duplicateRatio * 100
    let turnPenalty := (sharpTurns : ℚ) * 5
    some { waypoints := waypoints, routeTotals := totals, routePath := routePath,
           duration := estimatedMinutes * 60,
           timeDiff := (estimatedMinutes - targetMin) * 60,
           duplicateRatio := duplicateRatio, qualityScore := qualityScore,
           sharpTurns := sharpTurns,
           score := timeScore + duplicatePenalty + turnPenalty }
  else none

/-- The ranking pool of the v2.1 engine: all accepted candidates of the
sweep, in generation order. -/
def v2AcceptedPool (env : GeoEnv) (oracle : PointOracle) (oracleMulti : MultiOracle)
    (startLocation : Location) (maxRunningMinutes : ℚ) : List RouteCandidateV2 :=
  v2Attempts.filterMap (fun p =>
    v2AttemptResult env oracle oracleMulti startLocation maxRunningMinutes p.1 p.2)

/-- Errors surfaced by the engine entry points: `InvalidInput` for the
duration-range guard, `NoRouteFound` when the sweep accepts no candidate. -/
inductive EngineError where
  | invalidInput
  | noRouteFound
deriving DecidableEq

/-- Output type of the v2 family (`OptimizedRoute` in routeOptimizer.v2):
the winning candidate projected for the caller. -/
structure OptimizedRoute where
  startLocation : Location
  waypoints : List Location
  segments : List RouteSegment
  totalDistance : ℚ
  estimatedTime : ℚ
  routePath : List Location
  displayMarkerStartGoal : Option Location
deriving DecidableEq

/-- Comparator of the candidate sorts: JavaScript
`candidates.sort((a, b) => a.score - b.score)` sorts ascending by score
and is stable, which `List.mergeSort` models. -/
def scoreLE (a b : RouteCandidateV2) : Bool := a.score ≤ b.score

/-- Embedding of the v2.1 engine entry point `generateOptimizedClosedRoute`
(routeOptimizer.v2, lines 528-690): duration guard, sweep, pool, stable
sort by score, winner projection; `NoRouteFound` when the pool is empty. -/
def generateOptimizedClosedRouteV2 (env : GeoEnv) (oracle : PointOracle)
    (oracleMulti : MultiOracle) (startLocation : Location) (maxRunningMinutes : ℚ) :
    Except EngineError OptimizedRoute :=
  if maxRunningMinutes ≤ 0 ∨ maxRunningMinutes > 300 then
    .error .invalidInput
  else
    let candidates := v2AcceptedPool env oracle oracleMulti startLocation maxRunningMinutes
    match (candidates.mergeSort scoreLE).head? with
    | none => .error .noRouteFound
    | some best =>
      .ok { startLocation := startLocation, waypoints := best.waypoints,
            segments := best.routeTotals.segments,
            totalDistance := best.routeTotals.totalDistance,
            estimatedTime := best.routeTotals.estimatedTime,
            routePath := best.routePath,
            displayMarkerStartGoal := some startLocation }

/-- Time tolerance of the v4 engines, minutes (`TIME_TOLERANCE_MIN = 2`). -/
def TIME_TOLERANCE_MIN : ℚ := 2

/-- Scale sweep of the v4.0 engine (`SCALE_FACTORS = [0.9, 1.0, 1.1]`). -/
def SCALE_FACTORS : List ℚ := [0.9, 1.0, 1.1]

/-- Internal candidate record of the v4.0 engine (`RoundTripCandidate`). -/
structure RoundTripCandidateV4 where
  outboundWaypoints : List Location
  routeTotals : RouteTotals
  routePath : List Location
  estimatedTimeSeconds : ℚ
  score : ℚ
  outboundDistance : ℚ
  outboundTimeSeconds : ℚ
  roundTripDistance : ℚ
  roundTripTimeSeconds : ℚ
deriving DecidableEq

/-- The round-trip path construction of the v4.0 engine
(`generateOptimizedRoundTripRoute`, routeOptimizer.v4, lines 144-157):
`midIndex = ceil(length / 2)`, the outbound part is the first `midIndex`
geometry points, and the return part is the REVERSE OF THE OUTBOUND PART
WITHOUT ITS FIRST POINT (`reverseRoutePath(outboundPath.slice(1))`). -/
def roundTripPathFromGeometry (path : List Location) : List Location :=
  let midIndex := (path.length + 1) / 2
  let outboundPath := path.take midIndex
  let returnPath := (outboundPath.drop 1).reverse
  outboundPath ++ returnPath

/-- One attempt of the v4.0 engine (`generateOptimizedRoundTripRoute` loop
body, routeOptimizer.v4, lines 102-193): waypoints at the scaled radius,
outbound evaluation, doubling to a round trip, and the closed-interval
time-window check `minAllowed <= roundTripTime <= maxAllowed` (seconds). -/
def v4AttemptResult (env : GeoEnv) (oracle : PointOracle) (oracleMulti : MultiOracle)
    (startLocation : Location) (desiredRunningMinutes : ℚ) (scaleFactor : ℚ) :
    Option RoundTripCandidateV4 :=
  let minAllowedTime := (desiredRunningMinutes - TIME_TOLERANCE_MIN) * 60
  let maxAllowedTime := desiredRunningMinutes * 60
  let targetTime := desiredRunningMinutes * 60
  let targetOutboundTime := targetTime / 2
  let waypointCount := 4
  let estimatedOutboundDistance :=
    (targetOutboundTime / 60) * (10 / RUNNING_PACE_KM_PER_MIN) * scaleFactor
  let outboundWaypoints :=
    generateCircularWaypoints env startLocation estimatedOutboundDistance waypointCount
  let closedOutboundWaypoints := startLocation :: outboundWaypoints ++ [startLocation]
  let outboundTotals := evaluateRoute env oracle startLocation outboundWaypoints
  let roundTripTime := outboundTotals.estimatedTime * 2 * 60
  let roundTripDistance := outboundTotals.totalDistance * 2
  if roundTripTime > maxAllowedTime then none
  else if roundTripTime < minAllowedTime then none
  else
    let routePath :=
      match getClosedRouteGeometry env.dist (oracleMulti closedOutboundWaypoints)
          closedOutboundWaypoints with
      | .ok g => roundTripPathFromGeometry g.path
      | .error _ => closedOutboundWaypoints
    let timeDiff := |targetTime - roundTripTime|
    let simplicity := (waypointCount : ℚ) * 10
    some { outboundWaypoints := outboundWaypoints,
           routeTotals := { totalDistance := roundTripDistance,
                            estimatedTime := roundTripTime / 60,
                            segments := outboundTotals.segments },
           routePath := routePath,
           estimatedTimeSeconds := roundTripTime,
           score := timeDiff + simplicity,
           outboundDistance := outboundTotals.totalDistance,
           outboundTimeSeconds := outboundTotals.estimatedTime * 60,
           roundTripDistance := roundTripDistance,
           roundTripTimeSeconds := roundTripTime }

/-- The candidate pool of the v4.0 engine: one attempt per scale factor. -/
def v4AcceptedPool (env : GeoEnv) (oracle : PointOracle) (oracleMulti : MultiOracle)
    (startLocation : Location) (desiredRunningMinutes : ℚ) : List RoundTripCandidateV4 :=
  SCALE_FACTORS.filterMap (fun scale =>
    v4AttemptResult env oracle oracleMulti startLocation desiredRunningMinutes scale)

/-- Sort comparator of the v4.0 candidate ranking. -/
def scoreLE4 (a b : RoundTripCandidateV4) : Bool := a.score ≤ b.score

/-- Embedding of the v4.0 engine entry point
`generateOptimizedRoundTripRoute` (routeOptimizer.v4, lines 77-243). -/
def generateOptimizedRoundTripRouteV4 (env : GeoEnv) (oracle : PointOracle)
    (oracleMulti : MultiOracle) (startLocation : Location) (desiredRunningMinutes : ℚ) :
    Except EngineError OptimizedRoute :=
  if desiredRunningMinutes ≤ 0 ∨ desiredRunningMinutes > 300 then
    .error .invalidInput
  else
    let candidates := v4AcceptedPool env oracle oracleMulti startLocation desiredRunningMinutes
    match (candidates.mergeSort scoreLE4).head? with
    | none => .error .noRouteFound
    | some best =>
      .ok { startLocation := startLocation, waypoints := best.outboundWaypoints,
            segments := best.routeTotals.segments,
            totalDistance := best.routeTotals.totalDistance,
            estimatedTime := best.routeTotals.estimatedTime,
            routePath := best.routePath,
            displayMarkerStartGoal := some startLocation }

/-- Validation result of `validateRoundTripRoute`. -/
structure ValidationResult where
  isValid : Bool
  errors : List String
  warnings : List String
deriving DecidableEq

/-- Embedding of `validateRoundTripRoute` (routeOptimizer.v4, lines
267-324 and the identical copy at lines 1032-1089): an empty route path is
an immediate failure; otherwise errors accumulate for an open start/end
gap above 1 m and for an estimated time outside the closed window, and
`isValid` is defined as emptiness of the error list. -/
def validateRoundTripRoute (dist : Location → Location → ℚ)
    (route : OptimizedRoute) (desiredRunningMinutes : ℚ) : ValidationResult :=
  match route.routePath.head?, route.routePath.getLast? with
  | some startPoint, some endPoint =>
    let startEndDistance := dist startPoint endPoint
    let errors1 : List String :=
      if startEndDistance > 0.001 then ["start and end of the route differ"] else []
    let estimatedTimeMinutes := route.estimatedTime
    let minAllowedTime := desiredRunningMinutes - TIME_TOLERANCE_MIN
    let maxAllowedTime := desiredRunningMinutes
    let errors2 : List String :=
      if estimatedTimeMinutes > maxAllowedTime then ["running time exceeds the upper bound"] else []
    let errors3 : List String :=
      if estimatedTimeMinutes < minAllowedTime then ["running time is below the lower bound"] else []
    let errors := errors1 ++ errors2 ++ errors3
    let warnings : List String :=
      if estimatedTimeMinutes > desiredRunningMinutes - 1 then
        ["running time is close to the target"] else []
    { isValid := errors.isEmpty, errors := errors, warnings := warnings }
  | _, _ =>
    { isValid := false, errors := ["route path is empty"], warnings := [] }

/-- JavaScript `Math.round(x * 10) / 10` (round half up to one decimal). -/
def roundTenth (x : ℚ) : ℚ := ((⌊x * 10 + 1 / 2⌋ : ℤ) : ℚ) / 10

/-- Outbound leg result used by the v4.1 engine. -/
structure OutboundRoute where
  distance : ℚ
  path : List Location
deriving DecidableEq

/-- Modelled from the spec: `getOutboundRouteGeometry` is imported by the
v4.1 engine from routeOptimizer.v2 but is absent from the sources (only
this caller exists).  Per section 6 of the spec it requests a single
point-to-point route and converts `distance_m` to km and the GeoJSON
geometry to `Location` order; per section 4.4 an oracle failure on this
only required leg propagates a leg-unresolvable condition, which the
caller catches and turns into a skipped attempt. -/
def getOutboundRouteGeometry (resp : Option OsrmRoute) : Option OutboundRoute :=
  resp.map (fun r => { distance := r.distanceMeters / 1000, path := r.geometry })

/-- Modelled from the spec: `buildRoundTripPath` is imported by the v4.1
engine from routeOptimizer.v2 but is absent from the sources.  Per section
4.4 of the spec the return leg is the exact reverse of the outbound
polyline with the shared midpoint not repeated. -/
def buildRoundTripPath (outboundPath : List Location) (_startLocation : Location) :
    List Location :=
  outboundPath ++ (outboundPath.reverse.drop 1)

/-- Internal candidate record of the v4.1 engine (`RoundTripCandidate`,
second document of routeOptimizer.v4). -/
structure RoundTripCandidateV41 where
  midLocation : Location
  bearing : ℚ
  outboundDistance : ℚ
  outboundDuration : ℚ
  roundTripDistance : ℚ
  roundTripDuration : ℚ
  estimatedMinutes : ℚ
  routePath : List Location
  segments : List RouteSegment
  score : ℚ
deriving DecidableEq

/-- The (bearing, scale) attempts of the v4.1 engine in loop order:
8 bearings crossed with the five scale factors. -/
def v41Attempts : List (ℚ × ℚ) :=
  (List.range 8).flatMap (fun bearingIdx =>
    ([0.85, 0.95, 1.0, 1.05, 1.15] : List ℚ).map (fun s =>
      (((bearingIdx : ℚ) / 8) * 360, s)))

/-- One attempt of the v4.1 engine (`generateOptimizedRoundTripRoute` loop
body, second document of routeOptimizer.v4, lines 430-528): midpoint
projection, outbound oracle call, abnormal-length rejection (outbound
beyond three times the target), and the closed time window
`minAllowed <= estimatedMinutes <= maxAllowed` with the DISTANCE-BASED
estimate `estimatedMinutes = roundTripDistanceKm * 5`; the oracle duration
field is never read. -/
def v41AttemptResult (env : GeoEnv) (oracle : PointOracle) (startLocation : Location)
    (desiredRunningMinutes : ℚ) (bearing scaleFactor : ℚ) :
    Option RoundTripCandidateV41 :=
  let minAllowedTime := desiredRunningMinutes - TIME_TOLERANCE_MIN
  let maxAllowedTime := desiredRunningMinutes
  let targetTime := desiredRunningMinutes
  let targetOutboundKm := desiredRunningMinutes / PACE5_MIN_PER_KM / 2
  let scaledOutboundKm := targetOutboundKm * scaleFactor
  let midLocation := env.project startLocation bearing scaledOutboundKm
  match getOutboundRouteGeometry (oracle startLocation midLocation) with
  | none => none
  | some outboundRoute =>
    let outboundDistanceKm := outboundRoute.distance
    let roundTripDistanceKm := outboundDistanceKm * 2
    let estimatedMinutes := roundTripDistanceKm * PACE5_MIN_PER_KM
    if outboundDistanceKm > scaledOutboundKm * 3 then none
    else if estimatedMinutes > maxAllowedTime then none
    else if estimatedMinutes < minAllowedTime then none
    else
      let routePath := buildRoundTripPath outboundRoute.path startLocation
      some { midLocation := midLocation, bearing := bearing,
             outboundDistance := outboundDistanceKm, outboundDuration := 0,
             roundTripDistance := roundTripDistanceKm, roundTripDuration := 0,
             estimatedMinutes := estimatedMinutes, routePath := routePath,
             segments := [], score := |targetTime - estimatedMinutes| }

/-- Candidate cap of the v4.1 engine (`NUM_ROUTE_CANDIDATES = 3`). -/
def NUM_ROUTE_CANDIDATES : ℕ := 3

/-- The valid-candidate collection loop of the v4.1 engine: attempts are
processed in order, failed or rejected attempts are skipped, and the sweep
stops as soon as three valid candidates exist. -/
def v41Collect (env : GeoEnv) (oracle : PointOracle) (startLocation : Location)
    (desiredRunningMinutes : ℚ) :
    List (ℚ × ℚ) → List RoundTripCandidateV41 → List RoundTripCandidateV41
  | [], acc => acc
  | p :: rest, acc =>
    if NUM_ROUTE_CANDIDATES ≤ acc.length then acc
    else
      match v41AttemptResult env oracle startLocation desiredRunningMinutes p.1 p.2 with
      | none => v41Collect env oracle startLocation desiredRunningMinutes rest acc
      | some c => v41Collect env oracle startLocation desiredRunningMinutes rest (acc ++ [c])

/-- The valid-candidate pool of the v4.1 engine. -/
def v41ValidCandidates (env : GeoEnv) (oracle : PointOracle) (startLocation : Location)
    (desiredRunningMinutes : ℚ) : List RoundTripCandidateV41 :=
  v41Collect env oracle startLocation desiredRunningMinutes v41Attempts []

/-- Sort comparator of the v4.1 candidate ranking. -/
def scoreLE41 (a b : RoundTripCandidateV41) : Bool := a.score ≤ b.score

/-- Embedding of the v4.1 engine entry point
`generateOptimizedRoundTripRoute` (second document of routeOptimizer.v4,
lines 391-602): duration guard, swept collection capped at three valid
candidates, `NoRouteFound` when none is valid, otherwise a stable sort by
score and projection of the head candidate. -/
def generateOptimizedRoundTripRouteV41 (env : GeoEnv) (oracle : PointOracle)
    (startLocation : Location) (desiredRunningMinutes : ℚ) :
    Except EngineError OptimizedRoute :=
  if desiredRunningMinutes ≤ 0 ∨ desiredRunningMinutes > 300 then
    .error .invalidInput
  else
    let validCandidates := v41ValidCandidates env oracle startLocation desiredRunningMinutes
    match (validCandidates.mergeSort scoreLE41).head? with
    | none => .error .noRouteFound
    | some best =>
      .ok { startLocation := startLocation, waypoints := [best.midLocation],
            segments := best.segments,
            totalDistance := best.roundTripDistance,
            estimatedTime := best.estimatedMinutes,
            routePath := best.routePath,
            displayMarkerStartGoal := some startLocation }

/-- Output type of the stable course generator v2.2 (part_004
`OptimizedRoute`). -/
structure OptimizedRouteP4 where
  startLocation : Location
  midLocation : Location
  totalDistance : ℚ
  estimatedTime : ℚ
  routePath : List Location
  outwardPath : List Location
deriving DecidableEq

/-- Embedding of `getRouteSegment` (part_004, lines 236-267): oracle
success yields the polyline and the distance in km; any failure yields
null. -/
def getRouteSegment (resp : Option OsrmRoute) : Option OutboundRoute :=
  resp.map (fun r => { distance := r.distanceMeters / 1000, path := r.geometry })

/-- Embedding of `tryGenerateRoute` (part_004, lines 195-231): the return
leg is the reversed outbound polyline with the shared midpoint dropped
(`outwardSegment.path.slice().reverse()` then `slice(1)`), the total
distance is exactly twice the outbound distance, and the estimated time is
`(totalDistance / 5) * 60` rounded to one decimal.  The single
`getRouteSegment` call is the only oracle interaction: the return leg is
built by reversal, not by a second request. -/
def tryGenerateRoute (resp : Option OsrmRoute) (startLocation midLocation : Location) :
    Option OptimizedRouteP4 :=
  match getRouteSegment resp with
  | none => none
  | some outwardSegment =>
    let returnPath := outwardSegment.path.reverse
    let routePath := outwardSegment.path ++ returnPath.drop 1
    let totalDistance := outwardSegment.distance * 2
    let estimatedTime := totalDistance / PACE5_MIN_PER_KM * 60
    some { startLocation := startLocation, midLocation := midLocation,
           totalDistance := totalDistance,
           estimatedTime := roundTenth estimatedTime,
           routePath := routePath, outwardPath := outwardSegment.path }

/-- The (bearing, scale) attempts of `exploreMiddlePoints` (part_004):
8 bearings crossed with 7 scales, capped at `MAX_CANDIDATES = 30`
attempts. -/
def p4Attempts : List (ℚ × ℚ) :=
  ((([0, 45, 90, 135, 180, 225, 270, 315] : List ℚ).flatMap (fun bearing =>
    ([0.85, 0.9, 0.95, 1.0, 1.05, 1.1, 1.15] : List ℚ).map (fun s =>
      (bearing, s)))).take 30)

/-- One attempt of `exploreMiddlePoints` (part_004, lines 155-182): the
midpoint is projected at the scaled distance and the route is kept only if
`minTime <= estimatedTime <= maxTime` with `minTime = max(1, target - 2)`
and `maxTime = target`. -/
def p4AttemptResult (env : GeoEnv) (oracle : PointOracle) (startLocation : Location)
    (targetHalfDistance targetMinutes bearing scale : ℚ) : Option OptimizedRouteP4 :=
  let minTime := max 1 (targetMinutes - TIME_TOLERANCE_MIN)
  let maxTime := targetMinutes
  let adjustedDistance := targetHalfDistance * scale
  let midLocation := env.project startLocation bearing adjustedDistance
  match tryGenerateRoute (oracle startLocation midLocation) startLocation midLocation with
  | none => none
  | some route =>
    if minTime ≤ route.estimatedTime ∧ route.estimatedTime ≤ maxTime then some route
    else none

/-- Embedding of `exploreMiddlePoints` (part_004, lines 141-190): the
capped sweep of per-attempt results, kept in generation order. -/
def exploreMiddlePoints (env : GeoEnv) (oracle : PointOracle)
    (startLocation : Location) (targetHalfDistance targetMinutes : ℚ) :
    List OptimizedRouteP4 :=
  p4Attempts.filterMap (fun p =>
    p4AttemptResult env oracle startLocation targetHalfDistance targetMinutes p.1 p.2)

/-- JavaScript `list.reduce((best, cur) => key(cur) < key(best) ? cur :
best)`: the element with the least key, ties keeping the earlier element. -/
def reduceClosest {α : Type} (key : α → ℚ) : List α → Option α
  | [] => none
  | a :: rest => some (rest.foldl (fun best cur => if key cur < key best then cur else best) a)

/-- Embedding of the part_004 engine entry point
`generateOptimizedClosedRoute` (part_004, lines 43-80): target distance
from the pace, midpoint sweep, error when no candidate meets the time
constraint, otherwise the candidate with the least absolute time
difference (first one on ties). -/
def generateOptimizedClosedRouteP4 (env : GeoEnv) (oracle : PointOracle)
    (startLocation : Location) (targetMinutes : ℚ) :
    Except EngineError OptimizedRouteP4 :=
  let targetDistance := targetMinutes / PACE5_MIN_PER_KM
  let halfDistance := targetDistance / 2
  let candidates := exploreMiddlePoints env oracle startLocation halfDistance targetMinutes
  match reduceClosest (fun c => |c.estimatedTime - targetMinutes|) candidates with
  | none => .error .noRouteFound
  | some best => .ok best

/-- Output type of the v3.0 engine (second document of routeOptimizer.v2,
`OptimizedRoute`). -/
structure OptimizedRouteV3 where
  startLocation : Location
  midLocation : Location
  totalDistance : ℚ
  estimatedTime : ℚ
  routePath : List Location
deriving DecidableEq

/-- Embedding of `getRouteViaOSRM` (second document of routeOptimizer.v2,
lines 874-892): the polyline on success, null on any failure; the oracle
distance and duration fields are not used. -/
def getRouteViaOSRM (resp : Option OsrmRoute) : Option (List Location) :=
  resp.map (fun r => r.geometry)

/-- Embedding of `calculatePathDistance` (second document of
routeOptimizer.v2, lines 897-919): the haversine distances of consecutive
path points, summed. -/
def calculatePathDistance (dist : Location → Location → ℚ) (path : List Location) : ℚ :=
  sumPairwiseDist dist path

/-- One attempt of the v3.0 engine (`generateCandidates` loop body, second
document of routeOptimizer.v2, lines 795-842): midpoint projection,
outbound polyline from the oracle, outbound distance recomputed from the
polyline, doubling, the estimate `(totalDist / 5) * 60`, and the closed
time window `minTime <= estimatedTime <= maxTime`.  The accepted candidate
path is the outbound polyline followed by its reverse without the shared
midpoint. -/
def v3AttemptResult (env : GeoEnv) (oracle : PointOracle) (startLoc : Location)
    (targetHalfDist minTime maxTime : ℚ) (bearing scale : ℚ) :
    Option OptimizedRouteV3 :=
  let adjustedDist := targetHalfDist * scale
  let midLoc := env.project startLoc bearing adjustedDist
  match getRouteViaOSRM (oracle startLoc midLoc) with
  | none => none
  | some outwardPath =>
    let outwardDist := calculatePathDistance env.dist outwardPath
    let totalDist := outwardDist * 2
    let estimatedTime := totalDist / PACE5_MIN_PER_KM * 60
    if estimatedTime > maxTime then none
    else if estimatedTime < minTime then none
    else
      let returnPath := outwardPath.reverse
      some { startLocation := startLoc, midLocation := midLoc,
             totalDistance := totalDist,
             estimatedTime := roundTenth estimatedTime,
             routePath := outwardPath ++ returnPath.drop 1 }

/-- The (bearing, scale) attempts of the v3.0 `generateCandidates` sweep. -/
def v3Attempts : List (ℚ × ℚ) :=
  ([0, 45, 90, 135, 180, 225, 270, 315] : List ℚ).flatMap (fun bearing =>
    ([0.8, 0.85, 0.9, 0.95, 1.0, 1.05, 1.1, 1.15, 1.2] : List ℚ).map (fun s =>
      (bearing, s)))

/-- The collection loop of `generateCandidates` (second document of
routeOptimizer.v2, lines 784-850): attempts in sweep order, stopping at
`MAX_CANDIDATES = 3` accepted candidates. -/
def v3Collect (env : GeoEnv) (oracle : PointOracle) (startLoc : Location)
    (targetHalfDist minTime maxTime : ℚ) :
    List (ℚ × ℚ) → List OptimizedRouteV3 → List OptimizedRouteV3
  | [], acc => acc
  | p :: rest, acc =>
    if 3 ≤ acc.length then acc
    else
      match v3AttemptResult env oracle startLoc targetHalfDist minTime maxTime p.1 p.2 with
      | none => v3Collect env oracle startLoc targetHalfDist minTime maxTime rest acc
      | some c => v3Collect env oracle startLoc targetHalfDist minTime maxTime rest (acc ++ [c])

/-- Embedding of the v3.0 engine entry point
`generateOptimizedClosedRoute` (second document of routeOptimizer.v2,
lines 740-777): candidate sweep, error when empty, otherwise the candidate
with the least absolute time difference (first one on ties). -/
def generateOptimizedClosedRouteV3 (env : GeoEnv) (oracle : PointOracle)
    (startLocation : Location) (targetMinutes : ℚ) :
    Except EngineError OptimizedRouteV3 :=
  let targetDistance := targetMinutes / PACE5_MIN_PER_KM
  let targetHalfDistance := targetDistance / 2
  let minTime := max 1 (targetMinutes - TIME_TOLERANCE_MIN)
  let maxTime := targetMinutes
  let candidates :=
    v3Collect env oracle startLocation targetHalfDistance minTime maxTime v3Attempts []
  match reduceClosest (fun c => |c.estimatedTime - targetMinutes|) candidates with
  | none => .error .noRouteFound
  | some best => .ok best

/-- The selection specification shared by the candidate rankings: `b`
occurs in `l` at a position preceded only by strictly larger keys, and no
element of `l` has a smaller key.  This is exactly "lowest key wins, ties
broken by insertion order". -/
def IsFirstMin {α : Type} (key : α → ℚ) (l : List α) (b : α) : Prop :=
  (∃ pre post, l = pre ++ b :: post ∧ ∀ c ∈ pre, key b < key c) ∧
    ∀ c ∈ l, key b ≤ key c

lemma foldl_pick_isFirstMin {α : Type} (key : α → ℚ) :
    ∀ (t : List α) (a : α),
      IsFirstMin key (a :: t)
        (t.foldl (fun best cur => if key cur < key best then cur else best) a) := by
  intro t
  induction t with
  | nil =>
    intro a
    exact ⟨⟨[], [], rfl, by simp⟩, by simp⟩
  | cons b t ih =>
    intro a
    have hfold :
        ((b :: t).foldl (fun best cur => if key cur < key best then cur else best) a) =
          (t.foldl (fun best cur => if key cur < key best then cur else best)
            (if key b < key a then b else a)) := rfl
    rw [hfold]
    by_cases hb : key b < key a
    · rw [if_pos hb]
      obtain ⟨⟨pre, post, hsplit, hstrict⟩, hmin⟩ := ih b
      have hrb : key (t.foldl (fun best cur => if key cur < key best then cur else best) b) ≤ key b :=
        hmin b (List.mem_cons_self _ _)
      refine ⟨⟨a :: pre, post, ?_, ?_⟩, ?_⟩
      · simp [hsplit]
      · intro c hc
        rcases List.mem_cons.mp hc with hca | hcpre
        · subst hca; exact lt_of_le_of_lt hrb hb
        · exact hstrict c hcpre
      · intro c hc
        rcases List.mem_cons.mp hc with hca | hct
        · subst hca; exact le_of_lt (lt_of_le_of_lt hrb hb)
        · exact hmin c hct
    · rw [if_neg hb]
      have hab : key a ≤ key b := le_of_not_lt hb
      obtain ⟨⟨pre, post, hsplit, hstrict⟩, hmin⟩ := ih a
      cases pre with
      | nil =>
        injection hsplit with h1 h2
        refine ⟨⟨[], b :: t, by rw [← h1]; rfl, by simp⟩, ?_⟩
        intro c hc
        rcases List.mem_cons.mp hc with hca | hct
        · subst hca; rw [← h1]
        · rcases List.mem_cons.mp hct with hcb | hct2
          · subst hcb; rw [← h1]; exact hab
          · exact hmin c (List.mem_cons_of_mem _ hct2)
      | cons x pre2 =>
        injection hsplit with h1 h2
        have hra : key (t.foldl (fun best cur => if key cur < key best then cur else best) a) < key a := by
          have := hstrict x (List.mem_cons_self _ _)
          rwa [← h1] at this
        refine ⟨⟨a :: b :: pre2, post, ?_, ?_⟩, ?_⟩
        · exact congrArg (fun l => a :: b :: l) h2
        · intro c hc
          rcases List.mem_cons.mp hc with hca | hcrest
          · subst hca; exact hra
          · rcases List.mem_cons.mp hcrest with hcb | hcpre2
            · subst hcb; exact lt_of_lt_of_le hra hab
            · exact hstrict c (List.mem_cons_of_mem _ hcpre2)
        · intro c hc
          rcases List.mem_cons.mp hc with hca | hct
          · subst hca; exact le_of_lt hra
          · rcases List.mem_cons.mp hct with hcb | hct2
            · subst hcb; exact le_of_lt (lt_of_lt_of_le hra hab)
            · exact hmin c (List.mem_cons_of_mem _ hct2)

/-- The JavaScript reduce-based selection picks exactly the first minimum. -/
lemma reduceClosest_isFirstMin {α : Type} (key : α → ℚ) (l : List α) (b : α)
    (h : reduceClosest key l = some b) : IsFirstMin key l b := by
  cases l with
  | nil => simp [reduceClosest] at h
  | cons a t =>
    have hb : b = t.foldl (fun best cur => if key cur < key best then cur else best) a := by
      simpa [reduceClosest] using h.symm
    rw [hb]
    exact foldl_pick_isFirstMin key t a

lemma keyLE_trans {α : Type} (key : α → ℚ) :
    ∀ (a b c : α), (fun x y => decide (key x ≤ key y)) a b →
      (fun x y => decide (key x ≤ key y)) b c →
      (fun x y => decide (key x ≤ key y)) a c := by
  intro a b c hab hbc
  simp only [decide_eq_true_eq] at *
  exact le_trans hab hbc

lemma keyLE_total {α : Type} (key : α → ℚ) :
    ∀ (a b : α), ((fun x y => decide (key x ≤ key y)) a b ||
      (fun x y => decide (key x ≤ key y)) b a) := by
  intro a b
  simpa using le_total (key a) (key b)

/-- The head of a stable sort by key is exactly the first minimum: the
JavaScript `sort((a, b) => a.key - b.key)` followed by taking element 0
selects the least key, ties broken by insertion order. -/
lemma head_mergeSort_isFirstMin {α : Type} (key : α → ℚ) :
    ∀ (l : List α) (b : α),
      (l.mergeSort (fun x y => decide (key x ≤ key y))).head? = some b →
      IsFirstMin key l b := by
  intro l
  induction l with
  | nil =>
    intro b h
    simp [List.mergeSort_nil] at h
  | cons a t ih =>
    intro b h
    obtain ⟨l₁, l₂, e1, e2, hneg⟩ :=
      @List.mergeSort_cons _ (fun x y => decide (key x ≤ key y))
        (keyLE_trans key) (keyLE_total key) a t
    have hsorted := @List.sorted_mergeSort _
      (fun x y => decide (key x ≤ key y))
      (keyLE_trans key) (keyLE_total key) (a :: t)
    have hperm := List.mergeSort_perm (a :: t) (fun x y => decide (key x ≤ key y))
    cases l₁ with
    | nil =>
      rw [e1] at h hsorted hperm
      simp only [List.nil_append, List.head?_cons, Option.some.injEq] at h
      subst h
      refine ⟨⟨[], t, rfl, by simp⟩, ?_⟩
      intro c hc
      have hc2 : c ∈ a :: l₂ := (hperm.mem_iff).mpr hc
      rcases List.mem_cons.mp hc2 with hcb | hcl
      · subst hcb; exact le_refl _
      · have := (List.pairwise_cons.mp hsorted).1 c hcl
        simpa using this
    | cons x l₁2 =>
      rw [e1] at h hsorted hperm
      simp only [List.cons_append, List.head?_cons, Option.some.injEq] at h
      subst h
      have hx : (t.mergeSort (fun x y => decide (key x ≤ key y))).head? = some x := by
        rw [e2]; rfl
      obtain ⟨⟨pre, post, hsplit, hstrict⟩, hmin⟩ := ih x hx
      have hba : key x < key a := by
        have := hneg x (List.mem_cons_self _ _)
        simp only [Bool.not_eq_true', decide_eq_false_iff_not] at this
        exact lt_of_not_le this
      refine ⟨⟨a :: pre, post, ?_, ?_⟩, ?_⟩
      · exact congrArg (fun l => a :: l) hsplit
      · intro c hc
        rcases List.mem_cons.mp hc with hca | hcpre
        · subst hca; exact hba
        · exact hstrict c hcpre
      · intro c hc
        rcases List.mem_cons.mp hc with hca | hct
        · subst hca; exact le_of_lt hba
        · exact hmin c hct

lemma eq_some_getD {α : Type} [Inhabited α] {o : Option α} (h : o.isSome = true) :
    o = some (o.getD default) := by
  cases o with
  | none => simp at h
  | some a => rfl

lemma v2AttemptResult_bounds {env : GeoEnv} {oracle : PointOracle}
    {oracleMulti : MultiOracle} {s : Location} {m scale : ℚ} {wp : ℕ}
    {c : RouteCandidateV2}
    (hp : v2AttemptResult env oracle oracleMulti s m scale wp = some c) :
    m - 2 ≤ c.routeTotals.estimatedTime ∧ c.routeTotals.estimatedTime ≤ m := by
  simp only [v2AttemptResult] at hp
  split_ifs at hp with hacc
  rw [Option.some.injEq] at hp
  subst hp
  exact ⟨le_of_lt hacc.1, le_of_lt hacc.2⟩

lemma v4AttemptResult_bounds {env : GeoEnv} {oracle : PointOracle}
    {oracleMulti : MultiOracle} {s : Location} {m scale : ℚ}
    {c : RoundTripCandidateV4}
    (hp : v4AttemptResult env oracle oracleMulti s m scale = some c) :
    m - 2 ≤ c.routeTotals.estimatedTime ∧ c.routeTotals.estimatedTime ≤ m := by
  simp only [v4AttemptResult] at hp
  split_ifs at hp with h1 h2
  rw [Option.some.injEq] at hp
  have h1x := not_lt.mp h1
  have h2x := not_lt.mp h2
  have he : c.routeTotals.estimatedTime =
      (evaluateRoute env oracle s (generateCircularWaypoints env s
        (m * 60 / 2 / 60 * (10 / RUNNING_PACE_KM_PER_MIN) * scale) 4)).estimatedTime
        * 2 * 60 / 60 := by
    rw [← hp]
  rw [he]
  have ht : TIME_TOLERANCE_MIN = 2 := rfl
  rw [ht] at h2x
  constructor <;> linarith

/-- Claim C1: every candidate accepted into the ranking pool has its
estimated duration within the closed interval from requestedMinutes - 2 to
requestedMinutes, in both the v2.1 engine (whose acceptance test is the
strict window, a subset of the closed one) and the v4.0 engine (whose
acceptance test is the closed window); a resolved candidate with an
estimated duration outside the closed interval is rejected by the attempt
and therefore never enters the pool that is ranked. -/
theorem c1_accepted_duration_window :
    ∀ (env : GeoEnv) (oracle : PointOracle) (oracleMulti : MultiOracle)
      (s : Location) (m scale : ℚ) (wp : ℕ),
      (∀ c, v2AttemptResult env oracle oracleMulti s m scale wp = some c →
        m - 2 ≤ c.routeTotals.estimatedTime ∧ c.routeTotals.estimatedTime ≤ m) ∧
      (∀ c ∈ v2AcceptedPool env oracle oracleMulti s m,
        m - 2 ≤ c.routeTotals.estimatedTime ∧ c.routeTotals.estimatedTime ≤ m) ∧
      (∀ c, v4AttemptResult env oracle oracleMulti s m scale = some c →
        m - 2 ≤ c.routeTotals.estimatedTime ∧ c.routeTotals.estimatedTime ≤ m) ∧
      (∀ c ∈ v4AcceptedPool env oracle oracleMulti s m,
        m - 2 ≤ c.routeTotals.estimatedTime ∧ c.routeTotals.estimatedTime ≤ m) := by
  intro env oracle oracleMulti s m scale wp
  refine ⟨fun c hc => v2AttemptResult_bounds hc, fun c hc => ?_,
    fun c hc => v4AttemptResult_bounds hc, fun c hc => ?_⟩
  · rw [v2AcceptedPool, List.mem_filterMap] at hc
    obtain ⟨p, _, hp⟩ := hc
    exact v2AttemptResult_bounds hp
  · rw [v4AcceptedPool, List.mem_filterMap] at hc
    obtain ⟨p, _, hp⟩ := hc
    exact v4AttemptResult_bounds hp

/-- Witness geometry: the abstract helpers can be instantiated by any
functions; this instance keeps every projection at the start point. -/
def witEnv : GeoEnv :=
  { dist := fun _ _ => 0, project := fun l _ _ => l, bearing := fun _ _ => 0 }

/-- Witness oracle that always fails. -/
def witOracleFail : PointOracle := fun _ _ => none

/-- Witness multi-point oracle that always fails. -/
def witMultiFail : MultiOracle := fun _ => none

/-- Witness start location. -/
def witStart : Location := { lat := 0, lng := 0 }

/-- Witness point oracle: every leg resolves to 1 km in 348 s. -/
def witOracleSeg348 : PointOracle := fun _ _ =>
  some { distanceMeters := 1000, durationSeconds := 348, geometry := [] }

/-- Witness point oracle: every leg resolves to 1 km in 174 s. -/
def witOracleSeg174 : PointOracle := fun _ _ =>
  some { distanceMeters := 1000, durationSeconds := 174, geometry := [] }

instance : Inhabited RouteTotals := ⟨⟨0, 0, []⟩⟩

instance : Inhabited RouteCandidateV2 := ⟨⟨[], default, [], 0, 0, 0, 0, 0, 0⟩⟩

instance : Inhabited RoundTripCandidateV4 := ⟨⟨[], default, [], 0, 0, 0, 0, 0, 0⟩⟩

/-- The candidate accepted by the v2.1 attempt at scale 0.75 with 4
waypoints under the witness oracle. -/
def c1CandA : RouteCandidateV2 :=
  (v2AttemptResult witEnv witOracleSeg348 witMultiFail witStart 30 0.75 4).getD default

/-- The candidate accepted by the v4.0 attempt at scale 0.9 under the
witness oracle. -/
def c1CandB : RoundTripCandidateV4 :=
  (v4AttemptResult witEnv witOracleSeg174 witMultiFail witStart 30 0.9).getD default

/-- Witness for C1: a concrete accepted candidate of each engine, with the
window bounds obtained by applying the theorem. -/
theorem c1_witness :
    (28 ≤ c1CandA.routeTotals.estimatedTime ∧ c1CandA.routeTotals.estimatedTime ≤ 30) ∧
    (28 ≤ c1CandB.routeTotals.estimatedTime ∧ c1CandB.routeTotals.estimatedTime ≤ 30) := by
  have hA : v2AttemptResult witEnv witOracleSeg348 witMultiFail witStart 30 0.75 4 =
      some c1CandA :=
    eq_some_getD (by
      norm_num [v2AttemptResult, evaluateRoute, generateCircularWaypoints,
        getSegmentRouteInfo, pairsOf, witEnv, witOracleSeg348, witStart,
        RUNNING_PACE_MIN_PER_KM, List.range_succ])
  have hB : v4AttemptResult witEnv witOracleSeg174 witMultiFail witStart 30 0.9 =
      some c1CandB :=
    eq_some_getD (by
      norm_num [v4AttemptResult, evaluateRoute, generateCircularWaypoints,
        getSegmentRouteInfo, pairsOf, witEnv, witOracleSeg174, witStart,
        RUNNING_PACE_KM_PER_MIN, TIME_TOLERANCE_MIN, List.range_succ])
  have h1 := (c1_accepted_duration_window witEnv witOracleSeg348 witMultiFail
    witStart 30 0.75 4).1 c1CandA hA
  have h2 := (c1_accepted_duration_window witEnv witOracleSeg174 witMultiFail
    witStart 30 0.9 4).2.2.1 c1CandB hB
  exact ⟨⟨by linarith [h1.1], h1.2⟩, ⟨by linarith [h2.1], h2.2⟩⟩

/-- Witness point oracle: a leg of 1 km whose oracle duration is 600 s. -/
def witOracleSeg600 : PointOracle := fun _ _ =>
  some { distanceMeters := 1000, durationSeconds := 600, geometry := [] }

/-- Counterexample to C2: under a successful oracle call the v2 evaluator
returns the oracle duration field (600 s = 10 min) as the estimated
duration, which differs from distance times pace for both configured paces
(1 km gives 6 min at 6 min/km and 5 min at 5 min/km). -/
theorem c2_counterexample :
    (evaluateRoute witEnv witOracleSeg600 witStart []).estimatedTime = (600 : ℚ) / 60 ∧
    (evaluateRoute witEnv witOracleSeg600 witStart []).estimatedTime ≠
      (evaluateRoute witEnv witOracleSeg600 witStart []).totalDistance *
        RUNNING_PACE_MIN_PER_KM ∧
    (evaluateRoute witEnv witOracleSeg600 witStart []).estimatedTime ≠
      (evaluateRoute witEnv witOracleSeg600 witStart []).totalDistance * PACE5_MIN_PER_KM := by
  norm_num [evaluateRoute, getSegmentRouteInfo, pairsOf, witEnv, witOracleSeg600,
    witStart, RUNNING_PACE_MIN_PER_KM, PACE5_MIN_PER_KM]

/-- Claim C2 as amended: only the v4.1 engine estimates duration purely
from distance (estimatedMinutes = roundTripDistanceKm times the fixed
5 min/km pace, independent of the oracle duration field); the v2family
segment client takes the duration from the oracle duration field whenever
the oracle call succeeds, and uses distance times pace only on fallback. -/
theorem c2_amended :
    ∀ (env : GeoEnv) (oracle : PointOracle) (s : Location) (m bearing scale : ℚ)
      (c : RoundTripCandidateV41) (dist : Location → Location → ℚ)
      (a b : Location) (r : OsrmRoute) (d1 d2 : ℚ),
      (v41AttemptResult env oracle s m bearing scale = some c →
        c.estimatedMinutes = c.roundTripDistance * PACE5_MIN_PER_KM ∧
        c.roundTripDistance = c.outboundDistance * 2) ∧
      v41AttemptResult env (fun _ _ => some { r with durationSeconds := d1 }) s m bearing scale =
        v41AttemptResult env (fun _ _ => some { r with durationSeconds := d2 }) s m bearing scale ∧
      getSegmentRouteInfo dist (some r) a b =
        { distance := r.distanceMeters / 1000, duration := r.durationSeconds / 60 } ∧
      getSegmentRouteInfo dist none a b =
        { distance := dist a b, duration := dist a b * RUNNING_PACE_MIN_PER_KM } := by
  intro env oracle s m bearing scale c dist a b r d1 d2
  refine ⟨?_, rfl, rfl, rfl⟩
  intro h
  cases hmatch : getOutboundRouteGeometry (oracle s
      (env.project s bearing (m / PACE5_MIN_PER_KM / 2 * scale))) with
  | none => simp only [v41AttemptResult, hmatch] at h; exact absurd h (by simp)
  | some o =>
    simp only [v41AttemptResult, hmatch] at h
    split_ifs at h
    rw [Option.some.injEq] at h
    subst h
    exact ⟨rfl, rfl⟩

instance : Inhabited OsrmRoute := ⟨⟨0, 0, []⟩⟩

instance : Inhabited RoundTripCandidateV41 := ⟨⟨default, 0, 0, 0, 0, 0, 0, [], [], 0⟩⟩

/-- Witness point oracle: the outbound leg resolves to 2.9 km. -/
def witOracleSeg2900 : PointOracle := fun _ _ =>
  some { distanceMeters := 2900, durationSeconds := 0, geometry := [] }

/-- The candidate accepted by the v4.1 attempt at bearing 0 and scale 0.85
under the witness oracle. -/
def c2Cand : RoundTripCandidateV41 :=
  (v41AttemptResult witEnv witOracleSeg2900 witStart 30 0 0.85).getD default

/-- Witness for the amended C2: a concrete accepted v4.1 candidate whose
estimate is distance-based, obtained by applying the theorem. -/
theorem c2_amended_witness :
    c2Cand.estimatedMinutes = c2Cand.roundTripDistance * PACE5_MIN_PER_KM ∧
    c2Cand.roundTripDistance = c2Cand.outboundDistance * 2 := by
  have hc : v41AttemptResult witEnv witOracleSeg2900 witStart 30 0 0.85 = some c2Cand :=
    eq_some_getD (by
      norm_num [v41AttemptResult, getOutboundRouteGeometry, witEnv, witOracleSeg2900,
        witStart, PACE5_MIN_PER_KM, TIME_TOLERANCE_MIN])
  exact (c2_amended witEnv witOracleSeg2900 witStart 30 0 0.85 c2Cand
    (fun _ _ => 0) witStart witStart default 0 0).1 hc

/-- Second point of the witness geometry polyline. -/
def locB : Location := { lat := 0, lng := 1 }

/-- Third point of the witness geometry polyline. -/
def locC : Location := { lat := 0, lng := 2 }

/-- Fourth point of the witness geometry polyline. -/
def locD : Location := { lat := 0, lng := 3 }

/-- Witness multi-point oracle: the closed-route geometry resolves to the
four-point polyline start, locB, locC, locD. -/
def witOmGeom : MultiOracle := fun _ =>
  some { distanceMeters := 0, durationSeconds := 0, geometry := [witStart, locB, locC, locD] }

/-- The candidate accepted by the v4.0 attempt under the witness oracles. -/
def c3Cand : RoundTripCandidateV4 :=
  (v4AttemptResult witEnv witOracleSeg174 witOmGeom witStart 30 0.9).getD default

instance : Inhabited OptimizedRoute := ⟨⟨default, [], [], 0, 0, [], none⟩⟩

/-- The route returned by the v4.0 engine under the witness oracles. -/
def c3Route : OptimizedRoute :=
  match generateOptimizedRoundTripRouteV4 witEnv witOracleSeg174 witOmGeom witStart 30 with
  | .ok r => r
  | .error _ => default

lemma c3_attempt_eq :
    v4AttemptResult witEnv witOracleSeg174 witOmGeom witStart 30 0.9 = some c3Cand :=
  eq_some_getD (by
    norm_num [v4AttemptResult, evaluateRoute, generateCircularWaypoints,
      getSegmentRouteInfo, pairsOf, witEnv, witOracleSeg174, witStart,
      RUNNING_PACE_KM_PER_MIN, TIME_TOLERANCE_MIN, List.range_succ])

lemma c3_pool_eq :
    v4AcceptedPool witEnv witOracleSeg174 witOmGeom witStart 30 = [c3Cand, c3Cand, c3Cand] := by
  have e2 : v4AttemptResult witEnv witOracleSeg174 witOmGeom witStart 30 1.0 =
      v4AttemptResult witEnv witOracleSeg174 witOmGeom witStart 30 0.9 := rfl
  have e3 : v4AttemptResult witEnv witOracleSeg174 witOmGeom witStart 30 1.1 =
      v4AttemptResult witEnv witOracleSeg174 witOmGeom witStart 30 0.9 := rfl
  rw [v4AcceptedPool, SCALE_FACTORS]
  simp only [List.filterMap_cons, List.filterMap_nil, e2, e3, c3_attempt_eq]

lemma c3_engine_eq :
    generateOptimizedRoundTripRouteV4 witEnv witOracleSeg174 witOmGeom witStart 30 =
      .ok { startLocation := witStart, waypoints := c3Cand.outboundWaypoints,
            segments := c3Cand.routeTotals.segments,
            totalDistance := c3Cand.routeTotals.totalDistance,
            estimatedTime := c3Cand.routeTotals.estimatedTime,
            routePath := c3Cand.routePath,
            displayMarkerStartGoal := some witStart } := by
  have hsorted : ([c3Cand, c3Cand, c3Cand] : List RoundTripCandidateV4).Pairwise
      (fun a b => scoreLE4 a b = true) := by
    simp [scoreLE4]
  rw [generateOptimizedRoundTripRouteV4, if_neg (by norm_num), c3_pool_eq]
  dsimp only
  rw [List.mergeSort_of_sorted hsorted]
  rfl

lemma c3_path_eq : c3Cand.routePath = [witStart, locB, locB] := by
  have h := c3_attempt_eq
  simp only [v4AttemptResult] at h
  split_ifs at h
  rw [Option.some.injEq] at h
  rw [← h]
  norm_num [getClosedRouteGeometry, witOmGeom, roundTripPathFromGeometry,
    generateCircularWaypoints, witEnv, MAX_WAYPOINTS, List.range_succ]

/-- Claim C3 fails on the v4.0 engine: under witness oracles whose
closed-route geometry is the polyline witStart, locB, locC, locD, the
returned route path is witStart, locB, locB; it ends at the SECOND
geometry point locB, not at the start, because the return leg is built as
reverse(outbound.slice(1)) instead of reverse(outbound).slice(1).  For the
real haversine these two points are about 111 km apart, so the 1 m
closed-loop bound is violated; the engine contradicts its own header
requirement 6 and its own validator. -/
theorem c3_route_not_closed :
    generateOptimizedRoundTripRouteV4 witEnv witOracleSeg174 witOmGeom witStart 30 =
      .ok c3Route ∧
    c3Route.startLocation = witStart ∧
    c3Route.routePath.head? = some witStart ∧
    c3Route.routePath.getLast? = some locB ∧
    locB ≠ witStart := by
  have he := c3_engine_eq
  have hr : c3Route =
      { startLocation := witStart, waypoints := c3Cand.outboundWaypoints,
        segments := c3Cand.routeTotals.segments,
        totalDistance := c3Cand.routeTotals.totalDistance,
        estimatedTime := c3Cand.routeTotals.estimatedTime,
        routePath := c3Cand.routePath,
        displayMarkerStartGoal := some witStart } := by
    rw [c3Route, he]
  refine ⟨by rw [he, hr], by rw [hr], ?_, ?_, ?_⟩
  · rw [hr]; dsimp only; rw [c3_path_eq]; rfl
  · rw [hr]; dsimp only; rw [c3_path_eq]; rfl
  · simp [locB, witStart]

lemma reverse_drop_one {α : Type} (l : List α) : l.reverse.drop 1 = l.dropLast.reverse := by
  rw [List.drop_one, List.tail_reverse]

/-- Claim C4: in the stable v2.2 generator and in the v3.0 engine, an
out-and-back candidate built from a resolved outbound leg has total
distance exactly twice the outbound distance, and its route path is the
outbound polyline followed by the exact reverse of that polyline without
the shared midpoint; both are built from the single outbound response, no
second oracle call being modelled or needed. -/
theorem c4_out_and_back :
    (∀ (r : OsrmRoute) (s mid : Location) (route : OptimizedRouteP4),
      tryGenerateRoute (some r) s mid = some route →
        route.totalDistance = r.distanceMeters / 1000 * 2 ∧
        route.outwardPath = r.geometry ∧
        route.routePath.take r.geometry.length = r.geometry ∧
        route.routePath.drop r.geometry.length = r.geometry.dropLast.reverse) ∧
    (∀ (env : GeoEnv) (oracle : PointOracle) (s : Location)
      (thd minT maxT bearing scale : ℚ) (c : OptimizedRouteV3) (r : OsrmRoute),
      oracle s (env.project s bearing (thd * scale)) = some r →
      v3AttemptResult env oracle s thd minT maxT bearing scale = some c →
        c.totalDistance = calculatePathDistance env.dist r.geometry * 2 ∧
        c.routePath.take r.geometry.length = r.geometry ∧
        c.routePath.drop r.geometry.length = r.geometry.dropLast.reverse) := by
  constructor
  · intro r s mid route h
    simp only [tryGenerateRoute, getRouteSegment, Option.map_some'] at h
    rw [Option.some.injEq] at h
    subst h
    refine ⟨rfl, rfl, ?_, ?_⟩
    · exact List.take_left r.geometry (r.geometry.reverse.drop 1)
    · rw [List.drop_left r.geometry (r.geometry.reverse.drop 1), reverse_drop_one]
  · intro env oracle s thd minT maxT bearing scale c r ho h
    simp only [v3AttemptResult, getRouteViaOSRM, ho, Option.map_some'] at h
    split_ifs at h
    rw [Option.some.injEq] at h
    subst h
    refine ⟨rfl, ?_, ?_⟩
    · exact List.take_left r.geometry (r.geometry.reverse.drop 1)
    · rw [List.drop_left r.geometry (r.geometry.reverse.drop 1), reverse_drop_one]

instance : Inhabited OptimizedRouteP4 := ⟨⟨default, default, 0, 0, [], []⟩⟩

/-- Witness outbound response: a 1.2 km leg with the two-point polyline
witStart, locB. -/
def c4Resp : OsrmRoute :=
  { distanceMeters := 1200, durationSeconds := 0, geometry := [witStart, locB] }

/-- The route built by the v2.2 generator from the witness response. -/
def c4Route : OptimizedRouteP4 :=
  (tryGenerateRoute (some c4Resp) witStart locB).getD default

/-- Witness for C4: the concrete out-and-back route of the v2.2 generator,
with its properties obtained by applying the theorem. -/
theorem c4_witness :
    c4Route.totalDistance = c4Resp.distanceMeters / 1000 * 2 ∧
    c4Route.outwardPath = c4Resp.geometry ∧
    c4Route.routePath.take c4Resp.geometry.length = c4Resp.geometry ∧
    c4Route.routePath.drop c4Resp.geometry.length = c4Resp.geometry.dropLast.reverse := by
  have hc : tryGenerateRoute (some c4Resp) witStart locB = some c4Route :=
    eq_some_getD (by rfl)
  exact c4_out_and_back.1 c4Resp witStart locB c4Route hc

lemma v2_invalidInput_iff (env : GeoEnv) (oracle : PointOracle) (om : MultiOracle)
    (s : Location) (m : ℚ) :
    generateOptimizedClosedRouteV2 env oracle om s m = .error .invalidInput ↔
      (m ≤ 0 ∨ m > 300) := by
  constructor
  · intro h
    by_contra hm
    rw [generateOptimizedClosedRouteV2, if_neg hm] at h
    dsimp only at h
    cases hh : ((v2AcceptedPool env oracle om s m).mergeSort scoreLE).head? with
    | none => simp only [hh] at h; exact EngineError.noConfusion (Except.error.inj h)
    | some best => simp only [hh] at h; exact Except.noConfusion h
  · intro hm; rw [generateOptimizedClosedRouteV2, if_pos hm]

lemma v4_invalidInput_iff (env : GeoEnv) (oracle : PointOracle) (om : MultiOracle)
    (s : Location) (m : ℚ) :
    generateOptimizedRoundTripRouteV4 env oracle om s m = .error .invalidInput ↔
      (m ≤ 0 ∨ m > 300) := by
  constructor
  · intro h
    by_contra hm
    rw [generateOptimizedRoundTripRouteV4, if_neg hm] at h
    dsimp only at h
    cases hh : ((v4AcceptedPool env oracle om s m).mergeSort scoreLE4).head? with
    | none => simp only [hh] at h; exact EngineError.noConfusion (Except.error.inj h)
    | some best => simp only [hh] at h; exact Except.noConfusion h
  · intro hm; rw [generateOptimizedRoundTripRouteV4, if_pos hm]

lemma v41_invalidInput_iff (env : GeoEnv) (oracle : PointOracle)
    (s : Location) (m : ℚ) :
    generateOptimizedRoundTripRouteV41 env oracle s m = .error .invalidInput ↔
      (m ≤ 0 ∨ m > 300) := by
  constructor
  · intro h
    by_contra hm
    rw [generateOptimizedRoundTripRouteV41, if_neg hm] at h
    dsimp only at h
    cases hh : ((v41ValidCandidates env oracle s m).mergeSort scoreLE41).head? with
    | none => simp only [hh] at h; exact EngineError.noConfusion (Except.error.inj h)
    | some best => simp only [hh] at h; exact Except.noConfusion h
  · intro hm; rw [generateOptimizedRoundTripRouteV41, if_pos hm]

/-- Counterexample to C5: with requestedMinutes = 0.5 neither the v2.1 nor
the v4.1 engine fails with InvalidInput; the guard rejects only values at
most 0 or above 300, so 0.5 passes validation and the search is performed. -/
theorem c5_counterexample :
    generateOptimizedClosedRouteV2 witEnv witOracleFail witMultiFail witStart (1 / 2) ≠
      .error .invalidInput ∧
    generateOptimizedRoundTripRouteV41 witEnv witOracleFail witStart (1 / 2) ≠
      .error .invalidInput := by
  constructor
  · intro h
    have := (v2_invalidInput_iff witEnv witOracleFail witMultiFail witStart (1 / 2)).mp h
    norm_num at this
  · intro h
    have := (v41_invalidInput_iff witEnv witOracleFail witStart (1 / 2)).mp h
    norm_num at this

/-- Claim C5 as amended: requestedMinutes = 0.5 passes the input
validation of every engine entry point and the search proceeds;
InvalidInput arises exactly for a requested duration outside (0, 300],
for example 0 or 301. -/
theorem c5_amended :
    generateOptimizedClosedRouteV2 witEnv witOracleFail witMultiFail witStart (1 / 2) ≠
      .error .invalidInput ∧
    generateOptimizedClosedRouteV2 witEnv witOracleFail witMultiFail witStart 0 =
      .error .invalidInput ∧
    generateOptimizedClosedRouteV2 witEnv witOracleFail witMultiFail witStart 301 =
      .error .invalidInput ∧
    generateOptimizedRoundTripRouteV41 witEnv witOracleFail witStart (1 / 2) ≠
      .error .invalidInput ∧
    generateOptimizedRoundTripRouteV41 witEnv witOracleFail witStart 301 =
      .error .invalidInput := by
  refine ⟨?_, ?_, ?_, ?_, ?_⟩
  · intro h
    have := (v2_invalidInput_iff witEnv witOracleFail witMultiFail witStart (1 / 2)).mp h
    norm_num at this
  · exact (v2_invalidInput_iff witEnv witOracleFail witMultiFail witStart 0).mpr (by norm_num)
  · exact (v2_invalidInput_iff witEnv witOracleFail witMultiFail witStart 301).mpr (by norm_num)
  · intro h
    have := (v41_invalidInput_iff witEnv witOracleFail witStart (1 / 2)).mp h
    norm_num at this
  · exact (v41_invalidInput_iff witEnv witOracleFail witStart 301).mpr (by norm_num)

/-- Claim C6: each engine entry point fails with InvalidInput exactly when
the requested duration lies outside (0, 300]; inside that interval the
guard passes and the engine proceeds to the search. -/
theorem c6_invalidInput_characterization :
    ∀ (env : GeoEnv) (oracle : PointOracle) (om : MultiOracle) (s : Location) (m : ℚ),
      (generateOptimizedClosedRouteV2 env oracle om s m = .error .invalidInput ↔
        ¬(0 < m ∧ m ≤ 300)) ∧
      (generateOptimizedRoundTripRouteV4 env oracle om s m = .error .invalidInput ↔
        ¬(0 < m ∧ m ≤ 300)) ∧
      (generateOptimizedRoundTripRouteV41 env oracle s m = .error .invalidInput ↔
        ¬(0 < m ∧ m ≤ 300)) := by
  intro env oracle om s m
  have hiff : (m ≤ 0 ∨ m > 300) ↔ ¬(0 < m ∧ m ≤ 300) := by
    constructor
    · rintro (h | h) ⟨h1, h2⟩ <;> linarith
    · intro h
      rcases le_or_lt m 0 with h0 | h0
      · exact Or.inl h0
      · rcases le_or_lt m 300 with h3 | h3
        · exact absurd ⟨h0, h3⟩ h
        · exact Or.inr h3
  exact ⟨(v2_invalidInput_iff env oracle om s m).trans hiff,
    (v4_invalidInput_iff env oracle om s m).trans hiff,
    (v41_invalidInput_iff env oracle s m).trans hiff⟩

/-- Witness for C6: a duration outside the interval gives InvalidInput and
one inside does not, obtained by applying the theorem at 301 and 30. -/
theorem c6_witness :
    generateOptimizedRoundTripRouteV4 witEnv witOracleFail witMultiFail witStart 301 =
      .error .invalidInput ∧
    generateOptimizedRoundTripRouteV4 witEnv witOracleFail witMultiFail witStart 30 ≠
      .error .invalidInput := by
  constructor
  · exact (c6_invalidInput_characterization witEnv witOracleFail witMultiFail
      witStart 301).2.1.mpr (by norm_num)
  · intro h
    have := (c6_invalidInput_characterization witEnv witOracleFail witMultiFail
      witStart 30).2.1.mp h
    norm_num at this

/-- Witness straight-line distance function with a 1 km gap everywhere. -/
def c7Dist : Location → Location → ℚ := fun _ _ => 1

/-- Counterexample to C7: the fallback result carries NO fallback-used
flag; it is equal, as a value, to the result of a successful oracle call
with the same numbers, both for the point-to-point client and for the
multi-point client, so callers cannot discount quality. -/
theorem c7_counterexample :
    getSegmentRouteInfo c7Dist none witStart locB =
      getSegmentRouteInfo c7Dist
        (some { distanceMeters := 1000, durationSeconds := 360, geometry := [] })
        witStart locB ∧
    getClosedRouteGeometry c7Dist none [witStart, locB] =
      getClosedRouteGeometry c7Dist
        (some { distanceMeters := 1000, durationSeconds := 360,
                geometry := [witStart, locB] })
        [witStart, locB] := by
  constructor
  · norm_num [getSegmentRouteInfo, c7Dist, RUNNING_PACE_MIN_PER_KM]
  · norm_num [getClosedRouteGeometry, sumPairwiseDist, pairsOf, c7Dist,
      MAX_WAYPOINTS, RUNNING_PACE_MIN_PER_KM]

/-- Claim C7 as amended: on any oracle failure the clients return the
straight-line haversine distance (summed over consecutive waypoints, the
list being capped at the first 20, in the multi-point case) and a
pace-derived duration, and never surface the failure; but the result
carries no fallback flag. -/
theorem c7_amended :
    ∀ (dist : Location → Location → ℚ) (a b : Location)
      (wps : List Location) (resp : Option OsrmRoute),
      getSegmentRouteInfo dist none a b =
        { distance := dist a b, duration := dist a b * RUNNING_PACE_MIN_PER_KM } ∧
      (2 ≤ wps.length →
        getClosedRouteGeometry dist none wps =
          .ok { distance := sumPairwiseDist dist (wps.take MAX_WAYPOINTS),
                duration := sumPairwiseDist dist (wps.take MAX_WAYPOINTS) *
                  RUNNING_PACE_MIN_PER_KM * 60,
                path := wps.take MAX_WAYPOINTS }) ∧
      (2 ≤ wps.length → (getClosedRouteGeometry dist resp wps).isOk = true) := by
  intro dist a b wps resp
  refine ⟨rfl, ?_, ?_⟩
  · intro hlen
    rw [getClosedRouteGeometry, if_neg (not_lt.mpr hlen)]
  · intro hlen
    rw [getClosedRouteGeometry, if_neg (not_lt.mpr hlen)]
    cases resp <;> rfl

/-- Witness for the amended C7: the concrete fallback values at a failing
oracle call, obtained by applying the theorem. -/
theorem c7_amended_witness :
    getSegmentRouteInfo c7Dist none witStart locB =
      { distance := c7Dist witStart locB,
        duration := c7Dist witStart locB * RUNNING_PACE_MIN_PER_KM } ∧
    getClosedRouteGeometry c7Dist none [witStart, locB] =
      .ok { distance := sumPairwiseDist c7Dist ([witStart, locB].take MAX_WAYPOINTS),
            duration := sumPairwiseDist c7Dist ([witStart, locB].take MAX_WAYPOINTS) *
              RUNNING_PACE_MIN_PER_KM * 60,
            path := [witStart, locB].take MAX_WAYPOINTS } := by
  refine ⟨(c7_amended c7Dist witStart locB [witStart, locB] none).1, ?_⟩
  exact (c7_amended c7Dist witStart locB [witStart, locB] none).2.1 (by norm_num)

lemma mergeSort_head_none_iff {α : Type} (le : α → α → Bool) (l : List α) :
    (l.mergeSort le).head? = none ↔ l = [] := by
  rw [List.head?_eq_none_iff]
  constructor
  · intro h
    have := @List.length_mergeSort _ le l
    rw [h] at this
    exact List.length_eq_zero.mp this.symm
  · intro h; subst h; exact List.mergeSort_nil

lemma v2_noRouteFound_iff (env : GeoEnv) (oracle : PointOracle) (om : MultiOracle)
    (s : Location) (m : ℚ) (hm : ¬(m ≤ 0 ∨ m > 300)) :
    (generateOptimizedClosedRouteV2 env oracle om s m = .error .noRouteFound ↔
      v2AcceptedPool env oracle om s m = []) ∧
    (v2AcceptedPool env oracle om s m ≠ [] →
      (generateOptimizedClosedRouteV2 env oracle om s m).isOk = true) := by
  rw [generateOptimizedClosedRouteV2, if_neg hm]
  dsimp only
  cases hh : ((v2AcceptedPool env oracle om s m).mergeSort scoreLE).head? with
  | none =>
    have hp := (mergeSort_head_none_iff scoreLE _).mp hh
    simp only [hh]
    exact ⟨⟨fun _ => hp, fun _ => trivial⟩, fun hne => absurd hp hne⟩
  | some best =>
    have hp : v2AcceptedPool env oracle om s m ≠ [] := by
      intro hnil
      rw [(mergeSort_head_none_iff scoreLE _).mpr hnil] at hh
      exact Option.noConfusion hh
    simp only [hh]
    exact ⟨⟨fun h => absurd h (by simp), fun h => absurd h hp⟩, fun _ => rfl⟩

lemma v41_noRouteFound_iff (env : GeoEnv) (oracle : PointOracle)
    (s : Location) (m : ℚ) (hm : ¬(m ≤ 0 ∨ m > 300)) :
    (generateOptimizedRoundTripRouteV41 env oracle s m = .error .noRouteFound ↔
      v41ValidCandidates env oracle s m = []) ∧
    (v41ValidCandidates env oracle s m ≠ [] →
      (generateOptimizedRoundTripRouteV41 env oracle s m).isOk = true) := by
  rw [generateOptimizedRoundTripRouteV41, if_neg hm]
  dsimp only
  cases hh : ((v41ValidCandidates env oracle s m).mergeSort scoreLE41).head? with
  | none =>
    have hp := (mergeSort_head_none_iff scoreLE41 _).mp hh
    simp only [hh]
    exact ⟨⟨fun _ => hp, fun _ => trivial⟩, fun hne => absurd hp hne⟩
  | some best =>
    have hp : v41ValidCandidates env oracle s m ≠ [] := by
      intro hnil
      rw [(mergeSort_head_none_iff scoreLE41 _).mpr hnil] at hh
      exact Option.noConfusion hh
    simp only [hh]
    exact ⟨⟨fun h => absurd h (by simp), fun h => absurd h hp⟩, fun _ => rfl⟩

/-- Claim C8: when the (capped) sweep finishes with no accepted candidate,
the engine fails with NoRouteFound; when at least one candidate was
accepted the engine returns a route.  Per-attempt failures are local: a
failing oracle call or an out-of-window duration only turns that attempt
into a skipped one (the attempt functions return none and the sweep
continues), and such failures alone never surface an error. -/
theorem c8_noRouteFound_on_exhaustion :
    ∀ (env : GeoEnv) (oracle : PointOracle) (om : MultiOracle) (s : Location) (m : ℚ),
      0 < m → m ≤ 300 →
      (generateOptimizedClosedRouteV2 env oracle om s m = .error .noRouteFound ↔
        v2AcceptedPool env oracle om s m = []) ∧
      (v2AcceptedPool env oracle om s m ≠ [] →
        (generateOptimizedClosedRouteV2 env oracle om s m).isOk = true) ∧
      (generateOptimizedRoundTripRouteV41 env oracle s m = .error .noRouteFound ↔
        v41ValidCandidates env oracle s m = []) ∧
      (v41ValidCandidates env oracle s m ≠ [] →
        (generateOptimizedRoundTripRouteV41 env oracle s m).isOk = true) := by
  intro env oracle om s m h1 h2
  have hm : ¬(m ≤ 0 ∨ m > 300) := by
    rintro (h | h) <;> linarith
  obtain ⟨ha, hb⟩ := v2_noRouteFound_iff env oracle om s m hm
  obtain ⟨hc, hd⟩ := v41_noRouteFound_iff env oracle s m hm
  exact ⟨ha, hb, hc, hd⟩

lemma v41Collect_length_mono (env : GeoEnv) (oracle : PointOracle) (s : Location) (m : ℚ) :
    ∀ (attempts : List (ℚ × ℚ)) (acc : List RoundTripCandidateV41),
      acc.length ≤ (v41Collect env oracle s m attempts acc).length := by
  intro attempts
  induction attempts with
  | nil => intro acc; simp [v41Collect]
  | cons p rest ih =>
    intro acc
    simp only [v41Collect]
    split_ifs
    · exact le_refl _
    · cases hAtt : v41AttemptResult env oracle s m p.1 p.2 with
      | none => simp only [hAtt]; exact ih acc
      | some c =>
        simp only [hAtt]
        exact le_trans (by simp) (ih (acc ++ [c]))

set_option maxHeartbeats 1600000 in
lemma c8_v2_pool_empty :
    v2AcceptedPool witEnv witOracleFail witMultiFail witStart 30 = [] := by
  have h4 : v2AttemptResult witEnv witOracleFail witMultiFail witStart 30 0.75 4 = none := by
    norm_num [v2AttemptResult, evaluateRoute, generateCircularWaypoints,
      getSegmentRouteInfo, pairsOf, witEnv, witOracleFail, witStart,
      RUNNING_PACE_MIN_PER_KM, List.range_succ]
  have h5 : v2AttemptResult witEnv witOracleFail witMultiFail witStart 30 0.75 5 = none := by
    norm_num [v2AttemptResult, evaluateRoute, generateCircularWaypoints,
      getSegmentRouteInfo, pairsOf, witEnv, witOracleFail, witStart,
      RUNNING_PACE_MIN_PER_KM, List.range_succ]
  have h6 : v2AttemptResult witEnv witOracleFail witMultiFail witStart 30 0.75 6 = none := by
    norm_num [v2AttemptResult, evaluateRoute, generateCircularWaypoints,
      getSegmentRouteInfo, pairsOf, witEnv, witOracleFail, witStart,
      RUNNING_PACE_MIN_PER_KM, List.range_succ]
  have h7 : v2AttemptResult witEnv witOracleFail witMultiFail witStart 30 0.75 7 = none := by
    norm_num [v2AttemptResult, evaluateRoute, generateCircularWaypoints,
      getSegmentRouteInfo, pairsOf, witEnv, witOracleFail, witStart,
      RUNNING_PACE_MIN_PER_KM, List.range_succ]
  have h8 : v2AttemptResult witEnv witOracleFail witMultiFail witStart 30 0.75 8 = none := by
    norm_num [v2AttemptResult, evaluateRoute, generateCircularWaypoints,
      getSegmentRouteInfo, pairsOf, witEnv, witOracleFail, witStart,
      RUNNING_PACE_MIN_PER_KM, List.range_succ]
  rw [v2AcceptedPool]
  refine List.filterMap_eq_nil_iff.mpr ?_
  intro p hp
  rw [v2Attempts] at hp
  have hp2 := List.mem_of_mem_take hp
  rw [List.mem_flatMap] at hp2
  obtain ⟨scale, hscale, hpmem⟩ := hp2
  rw [List.mem_map] at hpmem
  obtain ⟨wp, hwp, rfl⟩ := hpmem
  rw [v2WaypointCounts] at hwp
  fin_cases hwp
  · exact h4
  · exact h5
  · exact h6
  · exact h7
  · exact h8

lemma v41Collect_cons (env : GeoEnv) (oracle : PointOracle) (s : Location) (m : ℚ)
    (p : ℚ × ℚ) (rest : List (ℚ × ℚ)) (acc : List RoundTripCandidateV41) :
    v41Collect env oracle s m (p :: rest) acc =
      if NUM_ROUTE_CANDIDATES ≤ acc.length then acc
      else
        match v41AttemptResult env oracle s m p.1 p.2 with
        | none => v41Collect env oracle s m rest acc
        | some c => v41Collect env oracle s m rest (acc ++ [c]) := rfl

/-- The candidate accepted by the first v4.1 sweep attempt under the
witness oracle (bearing written as the sweep computes it). -/
def c8Cand : RoundTripCandidateV41 :=
  (v41AttemptResult witEnv witOracleSeg2900 witStart 30 ((0 : ℚ) / 8 * 360) 0.85).getD default

set_option maxHeartbeats 1600000 in
lemma c8_v41_nonempty :
    v41ValidCandidates witEnv witOracleSeg2900 witStart 30 ≠ [] := by
  have hAtt : v41AttemptResult witEnv witOracleSeg2900 witStart 30 ((0 : ℚ) / 8 * 360) 0.85 =
      some c8Cand :=
    eq_some_getD (by
      norm_num [v41AttemptResult, getOutboundRouteGeometry, witEnv, witOracleSeg2900,
        witStart, PACE5_MIN_PER_KM, TIME_TOLERANCE_MIN])
  intro hnil
  have hlen : 1 ≤ (v41ValidCandidates witEnv witOracleSeg2900 witStart 30).length := by
    rw [v41ValidCandidates,
      show v41Attempts = ((0 : ℚ) / 8 * 360, (0.85 : ℚ)) :: v41Attempts.tail from rfl,
      v41Collect_cons, if_neg (by decide)]
    simp only [hAtt]
    exact le_trans (by simp) (v41Collect_length_mono witEnv witOracleSeg2900 witStart 30
      v41Attempts.tail [c8Cand])
  rw [hnil] at hlen
  simp at hlen

/-- Witness for C8: an all-rejected sweep produces NoRouteFound on the
v2.1 engine, and a sweep with an accepted candidate returns a route on the
v4.1 engine, both obtained by applying the theorem. -/
theorem c8_witness :
    generateOptimizedClosedRouteV2 witEnv witOracleFail witMultiFail witStart 30 =
      .error .noRouteFound ∧
    (generateOptimizedRoundTripRouteV41 witEnv witOracleSeg2900 witStart 30).isOk = true := by
  have hmain := c8_noRouteFound_on_exhaustion witEnv witOracleFail witMultiFail
    witStart 30 (by norm_num) (by norm_num)
  have hmain2 := c8_noRouteFound_on_exhaustion witEnv witOracleSeg2900 witMultiFail
    witStart 30 (by norm_num) (by norm_num)
  exact ⟨hmain.1.mpr c8_v2_pool_empty, hmain2.2.2.2 c8_v41_nonempty⟩

lemma reduceClosest_eq_none_iff {α : Type} (key : α → ℚ) (l : List α) :
    reduceClosest key l = none ↔ l = [] := by
  cases l <;> simp [reduceClosest]

lemma scoreLE_eq : scoreLE = fun a b => decide (a.score ≤ b.score) := rfl

/-- Claim C9: the engines select the accepted candidate with the lowest
score, ties broken by insertion order.  For the part_004 engine the
JavaScript reduce keeps the earlier candidate on ties; for the v2.1 engine
the stable sort by score followed by taking the head yields the first
minimum of the pool. -/
theorem c9_lowest_score_first_wins :
    (∀ (env : GeoEnv) (oracle : PointOracle) (s : Location) (m : ℚ)
      (r : OptimizedRouteP4),
      generateOptimizedClosedRouteP4 env oracle s m = .ok r →
      IsFirstMin (fun c => |c.estimatedTime - m|)
        (exploreMiddlePoints env oracle s (m / PACE5_MIN_PER_KM / 2) m) r) ∧
    (∀ (env : GeoEnv) (oracle : PointOracle) (om : MultiOracle) (s : Location) (m : ℚ)
      (route : OptimizedRoute),
      generateOptimizedClosedRouteV2 env oracle om s m = .ok route →
      ∃ best, IsFirstMin (fun c => c.score) (v2AcceptedPool env oracle om s m) best ∧
        route.waypoints = best.waypoints ∧
        route.totalDistance = best.routeTotals.totalDistance ∧
        route.estimatedTime = best.routeTotals.estimatedTime ∧
        route.routePath = best.routePath) := by
  constructor
  · intro env oracle s m r h
    simp only [generateOptimizedClosedRouteP4] at h
    cases hred : reduceClosest (fun c => |c.estimatedTime - m|)
        (exploreMiddlePoints env oracle s (m / PACE5_MIN_PER_KM / 2) m) with
    | none => simp only [hred] at h; exact absurd h (by simp)
    | some best =>
      simp only [hred] at h
      rw [Except.ok.injEq] at h
      subst h
      exact reduceClosest_isFirstMin _ _ _ hred
  · intro env oracle om s m route h
    rw [generateOptimizedClosedRouteV2] at h
    split_ifs at h with hm
    cases hh : ((v2AcceptedPool env oracle om s m).mergeSort scoreLE).head? with
    | none => simp only [hh] at h; exact absurd h (by simp)
    | some best =>
      simp only [hh] at h
      rw [Except.ok.injEq] at h
      subst h
      rw [scoreLE_eq] at hh
      exact ⟨best, head_mergeSort_isFirstMin (fun c => c.score) _ best hh,
        rfl, rfl, rfl, rfl⟩

/-- Witness point oracle for the part_004 engine: every outbound request
resolves to 1.2 km with the two-point polyline witStart, locB. -/
def witOracleP4 : PointOracle := fun _ _ =>
  some { distanceMeters := 1200, durationSeconds := 0, geometry := [witStart, locB] }

/-- The route selected by the part_004 engine under the witness oracle. -/
def c9Route : OptimizedRouteP4 :=
  match generateOptimizedClosedRouteP4 witEnv witOracleP4 witStart 30 with
  | .ok r => r
  | .error _ => default

set_option maxHeartbeats 1600000 in
lemma c9_engine_ok :
    generateOptimizedClosedRouteP4 witEnv witOracleP4 witStart 30 = .ok c9Route := by
  have hf0 : (p4AttemptResult witEnv witOracleP4 witStart
      (30 / PACE5_MIN_PER_KM / 2) 30 0 0.85).isSome = true := by
    norm_num [p4AttemptResult, tryGenerateRoute, getRouteSegment, roundTenth,
      witEnv, witOracleP4, witStart, PACE5_MIN_PER_KM, TIME_TOLERANCE_MIN]
  have hne : exploreMiddlePoints witEnv witOracleP4 witStart
      (30 / PACE5_MIN_PER_KM / 2) 30 ≠ [] := by
    intro hnil
    rw [exploreMiddlePoints] at hnil
    have hmem : ((0 : ℚ), (0.85 : ℚ)) ∈ p4Attempts := by
      rw [show p4Attempts = ((0 : ℚ), (0.85 : ℚ)) :: p4Attempts.tail from rfl]
      exact List.mem_cons_self _ _
    have h0 := List.filterMap_eq_nil_iff.mp hnil _ hmem
    have h02 : p4AttemptResult witEnv witOracleP4 witStart
        (30 / PACE5_MIN_PER_KM / 2) 30 0 0.85 = none := h0
    rw [h02] at hf0
    simp at hf0
  cases hred : reduceClosest (fun c => |c.estimatedTime - (30 : ℚ)|)
      (exploreMiddlePoints witEnv witOracleP4 witStart (30 / PACE5_MIN_PER_KM / 2) 30) with
  | none => exact absurd ((reduceClosest_eq_none_iff _ _).mp hred) hne
  | some b =>
    have hE : generateOptimizedClosedRouteP4 witEnv witOracleP4 witStart 30 = .ok b := by
      simp only [generateOptimizedClosedRouteP4, hred]
    rw [hE, show c9Route = b from by simp only [c9Route, hE]]

/-- Witness for C9: the route selected by the part_004 engine under the
witness oracle is the first minimum of its candidate list, obtained by
applying the theorem. -/
theorem c9_witness :
    IsFirstMin (fun c => |c.estimatedTime - (30 : ℚ)|)
      (exploreMiddlePoints witEnv witOracleP4 witStart (30 / PACE5_MIN_PER_KM / 2) 30)
      c9Route :=
  c9_lowest_score_first_wins.1 witEnv witOracleP4 witStart 30 c9Route c9_engine_ok

/-- Claim C10: the validator marks a route valid exactly when its error
list is empty, and an empty route path always yields an invalid result
with a non-empty error list. -/
theorem c10_validator_iff :
    ∀ (dist : Location → Location → ℚ) (route : OptimizedRoute) (m : ℚ),
      ((validateRoundTripRoute dist route m).isValid =
        (validateRoundTripRoute dist route m).errors.isEmpty) ∧
      (route.routePath = [] →
        (validateRoundTripRoute dist route m).isValid = false ∧
        (validateRoundTripRoute dist route m).errors ≠ []) := by
  intro dist route m
  constructor
  · cases hrp : route.routePath with
    | nil => simp [validateRoundTripRoute, hrp]
    | cons x xs =>
      have hy : ∃ y, (x :: xs).getLast? = some y :=
        Option.isSome_iff_exists.mp (by rw [List.getLast?_isSome]; simp)
      obtain ⟨y, hy⟩ := hy
      simp only [validateRoundTripRoute, hrp, List.head?_cons, hy]
  · intro hrp
    simp [validateRoundTripRoute, hrp]

/-- A route value with an empty path, for the validator witness. -/
def c10Route : OptimizedRoute :=
  { startLocation := witStart, waypoints := [], segments := [], totalDistance := 0,
    estimatedTime := 0, routePath := [], displayMarkerStartGoal := none }

/-- Witness for C10: the validator rejects the empty-path route, obtained
by applying the theorem. -/
theorem c10_witness :
    (validateRoundTripRoute c7Dist c10Route 30).isValid = false ∧
    (validateRoundTripRoute c7Dist c10Route 30).errors ≠ [] :=
  (c10_validator_iff c7Dist c10Route 30).2 rfl
